import Mathlib

/-!
Verification of the GeoGrapher computation engine (geographer/core).

Shallow embedding conventions:

* Python floats are read as the exact rational numbers they denote, so all
  user-supplied numbers and all purely rational arithmetic live in `ℚ`;
  `np.sqrt`, `atan2`, `cos`, `sin` are modelled as the exact real functions,
  so values computed through them live in `ℝ`.
* A Python function that can raise is modelled as returning
  `Except PyError _`; an uncaught exception is `Except.error`.
* `ComputationResult` keeps the machine-readable fields `status`, `op`,
  `payload` and `warnings`.  The `steps` strings and the `plot_elements`
  list are presentation-only (the spec calls the steps "purely explanatory
  and never parsed downstream") and are not modelled; point labels are
  display-only metadata (spec: "identity is by value, not name") and are
  likewise dropped.
* Each payload dictionary shape of the source is one constructor of the
  `Payload` inductive; the constructor's fields are the dictionary's keys
  in source order.
-/

namespace GeoGrapher

/-- EPS from utils.py: the engine-wide tolerance 1e-9. -/
def EPS : ℚ := 1 / 1000000000

/-- Python exception classes that the embedded code can raise. -/
inductive PyError where
  | valueError (msg : String)
  | zeroDivisionError
  | attributeError (msg : String)
  | typeError (msg : String)
deriving DecidableEq

/-- Point from points.py: an immutable coordinate pair (the display label is
presentation-only and not modelled). -/
structure Point where
  x : ℚ
  y : ℚ
deriving DecidableEq

/-- Line from lines.py: general-form coefficients of A·x + B·y + C = 0
(label dropped as presentation-only). -/
structure Line where
  A : ℚ
  B : ℚ
  C : ℚ
deriving DecidableEq

/-- Data of `Line.display()`: the payload dict always has keys A, B, C and
then either slope and y_intercept (non-vertical) or vertical and
x_intercept. -/
inductive LineDisplayInfo where
  | sloped (slope yIntercept : ℚ)
  | vertical (xIntercept : Option ℚ)
deriving DecidableEq

structure LineDisplay where
  A : ℚ
  B : ℚ
  C : ℚ
  info : LineDisplayInfo
deriving DecidableEq

/-- Real-valued variant of `Line.display()` for lines whose coefficients were
produced by normalization (angle bisectors). -/
inductive LineDisplayInfoR where
  | sloped (slope yIntercept : ℝ)
  | vertical (xIntercept : Option ℝ)

structure LineDisplayR where
  A : ℝ
  B : ℝ
  C : ℝ
  info : LineDisplayInfoR

/-- Payload dictionaries of the engine, one constructor per shape used in the
source.  `message` is the single-key diagnostic payload of every error and of
the parallel-lines / singular-matrix warnings. -/
inductive Payload where
  | message (msg : String)
  | distanceVal (d : ℝ)
  | midpointP (x y : ℚ)
  | pointP (x y : ℚ)
  | lineD (d : LineDisplay)
  | pointPair (x y : ℚ)
  | angleDeg (deg : ℝ)
  | pointR (x y : ℝ)
  | bisectors (internal external : LineDisplayR)
  | matResult (rows : List (List ℚ))
  | detVal (d : ℚ)
  | invResult (inv : List (List ℚ)) (det : ℚ)
  | transformResult (det : Option ℚ) (transformed : List (ℝ × ℝ))
  | parabolaD (vertex focus : ℚ × ℚ) (directrix : ℚ × ℚ × ℚ) (axis : String)
      (latusRectum : ℚ) (paramX paramY : String)
  | ellipseD (semiMajor semiMinor : ℚ) (foci : List (ℝ × ℝ)) (ecc : ℝ)
      (paramX paramY : String)
  | hyperbolaD (foci : List (ℝ × ℝ)) (ecc : ℝ) (asymptotes : List (ℚ × ℚ × ℚ))
  | classifyD (discriminant : ℚ) (conicType : String)
  | pointsR (pts : List (ℝ × ℝ))
  | apolloniusD (centerX centerY : ℚ) (radius : ℝ)
  | midpointsD (pts : List (ℚ × ℚ))

/-- Whether a payload is the single-key "message" dictionary. -/
def Payload.isMessage : Payload → Bool
  | .message _ => true
  | _ => false

/-- ComputationResult from utils.py, restricted to its machine-readable
fields (steps and plot_elements are presentation-only, see the file
header). -/
structure ComputationResult where
  status : String
  op : String
  payload : Payload
  warnings : List String := []

/-! ## points.py -/

/-- distance from points.py: always status "ok" with payload
key "distance". -/
noncomputable def distance (a b : Point) : ComputationResult :=
  let dx := b.x - a.x
  let dy := b.y - a.y
  let squared := dx ^ 2 + dy ^ 2
  { status := "ok", op := "distance"
    payload := .distanceVal (Real.sqrt (squared : ℝ)) }

/-- midpoint from points.py: always status "ok" with payload
key "midpoint". -/
def midpoint (a b : Point) : ComputationResult :=
  { status := "ok", op := "midpoint"
    payload := .midpointP ((a.x + b.x) / 2) ((a.y + b.y) / 2) }

/-- section_point from points.py.  The Python division `/ (m - n)`
(resp. `/ (m + n)`) raises ZeroDivisionError when the denominator is zero;
otherwise the result is always status "ok". -/
def section_point (a b : Point) (mn : ℚ × ℚ) (external : Bool) :
    Except PyError ComputationResult :=
  let m := mn.1
  let n := mn.2
  if external then
    if m - n = 0 then .error .zeroDivisionError
    else .ok { status := "ok", op := "section_point_external"
               payload := .pointP ((m * a.x - n * b.x) / (m - n))
                 ((m * a.y - n * b.y) / (m - n)) }
  else
    if m + n = 0 then .error .zeroDivisionError
    else .ok { status := "ok", op := "section_point"
               payload := .pointP ((m * a.x + n * b.x) / (m + n))
                 ((m * a.y + n * b.y) / (m + n)) }

/-- parametric_point from points.py: always status "ok". -/
def parametric_point (a b : Point) (t : ℚ) : ComputationResult :=
  { status := "ok", op := "parametric_point"
    payload := .pointP (a.x + t * (b.x - a.x)) (a.y + t * (b.y - a.y)) }

/-! ## lines.py -/

/-- Line.from_points: raises ValueError when the two points have equal
coordinate tuples, and otherwise returns the unnormalized coefficients
A = y1 - y2, B = x2 - x1, C = x1*y2 - x2*y1. -/
def Line.from_points (p1 p2 : Point) : Except PyError Line :=
  if p1.x = p2.x ∧ p1.y = p2.y then
    .error (.valueError "Cannot define a line with two identical points")
  else
    .ok { A := p1.y - p2.y, B := p2.x - p1.x, C := p1.x * p2.y - p2.x * p1.y }

/-- Line.from_general: raises ValueError when A and B are both within EPS
of zero. -/
def Line.from_general (A B C : ℚ) : Except PyError Line :=
  if |A| ≤ EPS ∧ |B| ≤ EPS then
    .error (.valueError "Invalid general form: A and B cannot both be zero")
  else .ok { A := A, B := B, C := C }

/-- Line.slope: None (undefined) when |B| ≤ EPS, else -A/B. -/
def Line.slope (l : Line) : Option ℚ :=
  if |l.B| ≤ EPS then none else some (-l.A / l.B)

/-- Line.intercept: None when |B| ≤ EPS, else -C/B. -/
def Line.intercept (l : Line) : Option ℚ :=
  if |l.B| ≤ EPS then none else some (-l.C / l.B)

/-- Line.x_intercept: None when |A| ≤ EPS, else -C/A. -/
def Line.x_intercept (l : Line) : Option ℚ :=
  if |l.A| ≤ EPS then none else some (-l.C / l.A)

/-- Line.display: payload dict with A, B, C and then slope / y_intercept for
a non-vertical line, or vertical / x_intercept otherwise. -/
def Line.display (l : Line) : LineDisplay :=
  match l.slope with
  | some m => { A := l.A, B := l.B, C := l.C, info := .sloped m ((l.intercept).getD 0) }
  | none => { A := l.A, B := l.B, C := l.C, info := .vertical l.x_intercept }

/-- line_from_points from lines.py: builds the line (propagating the
ValueError on identical points) and reports its display dict. -/
def line_from_points (p1 p2 : Point) : Except PyError ComputationResult := do
  let l ← Line.from_points p1 p2
  return { status := "ok", op := "line_from_points", payload := .lineD l.display }

/-- Element list returned by sympy's Line.intersection: empty for parallel
distinct lines, a Point2D for a unique intersection, the coincident Line2D
itself when the lines coincide. -/
inductive SymEntity where
  | pt (x y : ℚ)
  | ln
deriving DecidableEq

/-- Line.as_sympy from lines.py.  For a vertical line (|B| ≤ EPS) the code
evaluates -C/A (ZeroDivisionError when A = 0) and then calls
`SymLine(Point2D(x_val, 0), slope=None)`, which raises ValueError in sympy
(`Line2D` demands a second point or a non-None slope keyword).  A
non-vertical line is handed to sympy as its exact general-form equation. -/
def Line.as_sympy (l : Line) : Except PyError Line :=
  if |l.B| ≤ EPS then
    if l.A = 0 then .error .zeroDivisionError
    else .error (.valueError "A 2nd Point or keyword slope must be used.")
  else .ok l

/-- Exact intersection of two sympy lines (both non-vertical here): a unique
point by Cramer's rule when the determinant is non-zero, the line itself when
the two lines coincide, nothing when they are parallel and distinct. -/
def symLineIntersection (l1 l2 : Line) : List SymEntity :=
  let det := l1.A * l2.B - l2.A * l1.B
  if det ≠ 0 then
    [.pt ((l1.B * l2.C - l2.B * l1.C) / det) ((l1.C * l2.A - l2.C * l1.A) / det)]
  else if l1.C * l2.B = l2.C * l1.B then [.ln]
  else []

/-- intersection from lines.py.  An empty sympy result yields the
"parallel_lines" warning; a point yields status "ok"; a coincident line makes
`point[0].x` raise AttributeError (a sympy `Line2D` has no attribute `x`). -/
def intersection (line1 line2 : Line) : Except PyError ComputationResult := do
  let s1 ← line1.as_sympy
  let s2 ← line2.as_sympy
  match symLineIntersection s1 s2 with
  | [] =>
    .ok { status := "warning", op := "intersection"
          payload := .message "Lines are parallel or coincident"
          warnings := ["parallel_lines"] }
  | .pt x y :: _ =>
    .ok { status := "ok", op := "intersection", payload := .pointPair x y }
  | .ln :: _ => .error (.attributeError "Line2D object has no attribute x")

/-- angle_between_lines from lines.py: 0 when both slopes are undefined, 90
when exactly one is, else degrees(atan2(|(m2-m1)/(1+m1*m2)|, 1)); the Python
division raises ZeroDivisionError when 1 + m1*m2 = 0. -/
noncomputable def angle_between_lines (line1 line2 : Line) :
    Except PyError ComputationResult :=
  match line1.slope, line2.slope with
  | none, none =>
    .ok { status := "ok", op := "angle_between_lines", payload := .angleDeg 0 }
  | none, some _ =>
    .ok { status := "ok", op := "angle_between_lines", payload := .angleDeg 90 }
  | some _, none =>
    .ok { status := "ok", op := "angle_between_lines", payload := .angleDeg 90 }
  | some m1, some m2 =>
    if 1 + m1 * m2 = 0 then .error .zeroDivisionError
    else
      .ok { status := "ok", op := "angle_between_lines"
            payload := .angleDeg
              (Real.arctan |((m2 - m1) / (1 + m1 * m2) : ℚ)| * 180 / Real.pi) }

/-- Line.normalized from lines.py: raises ValueError when hypot(A, B) ≤ EPS,
else divides the coefficients by the norm (real-valued). -/
noncomputable def Line.normalized (l : Line) : Except PyError (ℝ × ℝ × ℝ) :=
  let norm : ℝ := Real.sqrt ((l.A : ℝ) ^ 2 + (l.B : ℝ) ^ 2)
  if norm ≤ (EPS : ℝ) then
    .error (.valueError "Degenerate line coefficients: both A and B near zero")
  else .ok ((l.A : ℝ) / norm, (l.B : ℝ) / norm, (l.C : ℝ) / norm)

/-- foot_of_perpendicular from lines.py: normalizes the line (propagating its
ValueError) and projects the point with the normal-projection formulas. -/
noncomputable def foot_of_perpendicular (l : Line) (p : Point) :
    Except PyError ComputationResult := do
  let (A, B, C) ← l.normalized
  let footX := (B * (B * (p.x : ℝ) - A * (p.y : ℝ)) - A * C) / (A ^ 2 + B ^ 2)
  let footY := (A * (-B * (p.x : ℝ) + A * (p.y : ℝ)) - B * C) / (A ^ 2 + B ^ 2)
  return { status := "ok", op := "foot_of_perpendicular", payload := .pointR footX footY }

/-- distance_from_point from lines.py: the point-to-line distance formula;
the embedded call to foot_of_perpendicular raises ValueError when the line is
degenerate, so the operation only returns for lines it can normalize. -/
noncomputable def distance_from_point (l : Line) (p : Point) :
    Except PyError ComputationResult := do
  let numerator : ℝ := |(l.A * p.x + l.B * p.y + l.C : ℚ)|
  let denominator : ℝ := Real.sqrt ((l.A : ℝ) ^ 2 + (l.B : ℝ) ^ 2)
  let _ ← foot_of_perpendicular l p
  return { status := "ok", op := "distance_point_line"
           payload := .distanceVal (numerator / denominator) }

open Classical in
/-- Real-valued Line.display for normalized coefficient triples, with the
same |B| ≤ EPS branching as the rational version. -/
noncomputable def displayR (A B C : ℝ) : LineDisplayR :=
  if |B| ≤ (EPS : ℝ) then
    { A := A, B := B, C := C
      info := .vertical (if |A| ≤ (EPS : ℝ) then none else some (-C / A)) }
  else { A := A, B := B, C := C, info := .sloped (-A / B) (-C / B) }

/-- angle_bisectors from lines.py: normalizes both lines (propagating
ValueError on a degenerate one) and reports the sum and difference of the
unit-normal coefficient triples. -/
noncomputable def angle_bisectors (line1 line2 : Line) :
    Except PyError ComputationResult := do
  let (a1, b1, c1) ← line1.normalized
  let (a2, b2, c2) ← line2.normalized
  return { status := "ok", op := "angle_bisectors"
           payload := .bisectors (displayR (a1 + a2) (b1 + b2) (c1 + c2))
             (displayR (a1 - a2) (b1 - b2) (c1 - c2)) }

/-! ## matrices.py -/

/-- Row count of a nested-list matrix. -/
def mrows (m : List (List ℚ)) : ℕ := m.length

/-- Column count of a nested-list matrix (length of the first row). -/
def mcols (m : List (List ℚ)) : ℕ := (m.headD []).length

/-- Entry (i, j) of a nested-list matrix (0 outside the lists; valid indices
never reach the default). -/
def entry (m : List (List ℚ)) (i j : ℕ) : ℚ := ((m[i]?.getD [])[j]?.getD 0)

/-- _ensure_matrix from matrices.py: `np.array` of a flat/empty or ragged
nested list does not produce a two-dimensional array, and the function
raises ValueError. -/
def ensure_matrix (m : List (List ℚ)) : Except PyError (List (List ℚ)) :=
  if m ≠ [] ∧ m.all (fun row => row.length = mcols m) then .ok m
  else .error (.valueError "Matrix must be two-dimensional")

/-- Laplace expansion along the first row, with the row count as structural
fuel; `np.linalg.det` is modelled as the exact determinant. -/
def detAux : ℕ → List (List ℚ) → ℚ
  | 0, _ => 1
  | _ + 1, [] => 1
  | fuel + 1, r :: rest =>
    ((List.range r.length).map fun j =>
      (-1) ^ j * r.getD j 0 * detAux fuel (rest.map fun row => row.eraseIdx j)).sum

/-- Determinant of a nested-list square matrix. -/
def detL (m : List (List ℚ)) : ℚ := detAux m.length m

/-- Minor of a nested-list matrix: drop row i and column j. -/
def minorL (m : List (List ℚ)) (i j : ℕ) : List (List ℚ) :=
  (m.eraseIdx i).map fun row => row.eraseIdx j

/-- Exact inverse (adjugate over determinant); `np.linalg.inv` is modelled as
the exact inverse of a matrix whose determinant passed the EPS guard. -/
def invL (m : List (List ℚ)) : List (List ℚ) :=
  (List.range m.length).map fun i =>
    (List.range m.length).map fun j =>
      (-1) ^ (i + j) * detL (minorL m j i) / detL m

/-- matrix_addition from matrices.py: status "error" on a shape mismatch,
else the element-wise sum. -/
def matrix_addition (a b : List (List ℚ)) : Except PyError ComputationResult := do
  let ma ← ensure_matrix a
  let mb ← ensure_matrix b
  if mrows ma = mrows mb ∧ mcols ma = mcols mb then
    .ok { status := "ok", op := "matrix_addition"
          payload := .matResult (List.zipWith (fun ra rb => List.zipWith (· + ·) ra rb) ma mb) }
  else
    .ok { status := "error", op := "matrix_addition"
          payload := .message "Matrices must share the same shape" }

/-- matrix_multiplication from matrices.py: status "error" when the inner
dimensions disagree, else the row-column product. -/
def matrix_multiplication (a b : List (List ℚ)) : Except PyError ComputationResult := do
  let ma ← ensure_matrix a
  let mb ← ensure_matrix b
  if mcols ma = mrows mb then
    .ok { status := "ok", op := "matrix_multiplication"
          payload := .matResult ((List.range (mrows ma)).map fun i =>
            (List.range (mcols mb)).map fun j =>
              ((List.range (mcols ma)).map fun k => entry ma i k * entry mb k j).sum) }
  else
    .ok { status := "error", op := "matrix_multiplication"
          payload := .message "Inner dimensions must agree" }

/-- matrix_determinant from matrices.py: status "error" for a non-square
matrix, else the determinant. -/
def matrix_determinant (m : List (List ℚ)) : Except PyError ComputationResult := do
  let mat ← ensure_matrix m
  if mrows mat = mcols mat then
    .ok { status := "ok", op := "matrix_determinant", payload := .detVal (detL mat) }
  else
    .ok { status := "error", op := "matrix_determinant"
          payload := .message "Matrix must be square" }

/-- matrix_inverse from matrices.py: status "error" for a non-square matrix;
status "warning" with tag "singular_matrix" when |det| < EPS (a strict
comparison in the source); else the inverse and the determinant. -/
def matrix_inverse (m : List (List ℚ)) : Except PyError ComputationResult := do
  let mat ← ensure_matrix m
  if mrows mat = mcols mat then
    if |detL mat| < EPS then
      .ok { status := "warning", op := "matrix_inverse"
            payload := .message "Matrix is nearly singular"
            warnings := ["singular_matrix"] }
    else
      .ok { status := "ok", op := "matrix_inverse"
            payload := .invResult (invL mat) (detL mat) }
  else
    .ok { status := "error", op := "matrix_inverse"
          payload := .message "Matrix must be square" }

/-- Evenly spaced real samples, matching `np.linspace` (endpoint
included). -/
noncomputable def linspaceR (a b : ℝ) (n : ℕ) : List ℝ :=
  (List.range n).map fun i => a + (b - a) * i / ((n : ℝ) - 1)

/-- _unit_circle_samples from matrices.py. -/
noncomputable def unit_circle_samples (n : ℕ) : List (ℝ × ℝ) :=
  (linspaceR 0 (2 * Real.pi) n).map fun θ => (Real.cos θ, Real.sin θ)

/-- Evenly spaced rational samples (np.linspace over exactly representable
endpoints). -/
def linspaceQ (a b : ℚ) (n : ℕ) : List ℚ :=
  (List.range n).map fun i => a + (b - a) * i / ((n : ℚ) - 1)

/-- _grid_samples from matrices.py: the 5×5 grid over [-1, 1]². -/
def grid_samples : List (ℚ × ℚ) :=
  (linspaceQ (-1) 1 5).flatMap fun xv => (linspaceQ (-1) 1 5).map fun yv => (xv, yv)

/-- Application of a 2×2 matrix to a sample point (`(mat @ points.T).T`). -/
def applyMat2 (m : List (List ℚ)) (p : ℝ × ℝ) : ℝ × ℝ :=
  ((entry m 0 0 : ℝ) * p.1 + (entry m 0 1 : ℝ) * p.2,
   (entry m 1 0 : ℝ) * p.1 + (entry m 1 1 : ℝ) * p.2)

/-- matrix_transform from matrices.py: status "error" for a non-square or a
non-2x2/3x3 matrix; an unknown shape name raises ValueError; for a 3×3
matrix `mat @ points.T` multiplies a 3×3 by a 2×N array and numpy raises;
for a 2×2 matrix the sampled shape is mapped through the matrix. -/
noncomputable def matrix_transform (m : List (List ℚ)) (shape : String) :
    Except PyError ComputationResult := do
  let mat ← ensure_matrix m
  if mrows mat ≠ mcols mat then
    .ok { status := "error", op := "matrix_transform"
          payload := .message "Matrix must be square" }
  else if mrows mat ≠ 2 ∧ mrows mat ≠ 3 then
    .ok { status := "error", op := "matrix_transform"
          payload := .message "Only 2x2 or 3x3 matrices supported" }
  else do
    let pts : List (ℝ × ℝ) ←
      if shape = "unit_circle" then pure (unit_circle_samples 200)
      else if shape = "grid" then
        pure (grid_samples.map fun p => ((p.1 : ℝ), (p.2 : ℝ)))
      else .error (.valueError "Unsupported shape")
    if mrows mat = 2 then
      .ok { status := "ok", op := "matrix_transform"
            payload := .transformResult (some (detL mat)) (pts.map (applyMat2 mat)) }
    else
      .error (.valueError "matmul: input operand 1 has a mismatch in its core dimension")

/-! ## conics.py -/

/-- parabola_y2_4ax from conics.py: status "error" (message-only payload,
warning tag "degenerate") when a = 0, else the standard-form data. -/
def parabola_y2_4ax (a : ℚ) : ComputationResult :=
  if a = 0 then
    { status := "error", op := "parabola_y2_4ax"
      payload := .message "Parameter a must be non-zero"
      warnings := ["degenerate"] }
  else
    { status := "ok", op := "parabola_y2_4ax"
      payload := .parabolaD (0, 0) (a, 0) (1, 0, -a) "x-axis" |4 * a| "at^2" "2at" }

/-- parabola_x2_4ay from conics.py. -/
def parabola_x2_4ay (a : ℚ) : ComputationResult :=
  if a = 0 then
    { status := "error", op := "parabola_x2_4ay"
      payload := .message "Parameter a must be non-zero"
      warnings := ["degenerate"] }
  else
    { status := "ok", op := "parabola_x2_4ay"
      payload := .parabolaD (0, 0) (0, a) (0, 1, -a) "y-axis" |4 * a| "2at" "at^2" }

/-- ellipse_standard from conics.py: status "error" when a semi-axis is not
positive; otherwise c = sqrt(|a² - b²|), eccentricity c / max(a, b), and the
foci are placed at (c, 0) and (-c, 0) unconditionally. -/
noncomputable def ellipse_standard (a b : ℚ) : ComputationResult :=
  if a ≤ 0 ∨ b ≤ 0 then
    { status := "error", op := "ellipse_standard"
      payload := .message "Semi-axes must be positive"
      warnings := ["degenerate"] }
  else
    let c : ℝ := Real.sqrt |(a : ℝ) ^ 2 - (b : ℝ) ^ 2|
    { status := "ok", op := "ellipse_standard"
      payload := .ellipseD (max a b) (min a b) [(c, 0), (-c, 0)]
        (c / (max a b : ℚ)) "a cos t" "b sin t" }

/-- hyperbola_standard from conics.py: status "error" when a semi-axis is not
positive, else c = sqrt(a² + b²), eccentricity c/a and asymptote data. -/
noncomputable def hyperbola_standard (a b : ℚ) : ComputationResult :=
  if a ≤ 0 ∨ b ≤ 0 then
    { status := "error", op := "hyperbola_standard"
      payload := .message "Semi-axes must be positive"
      warnings := ["degenerate"] }
  else
    let c : ℝ := Real.sqrt ((a : ℝ) ^ 2 + (b : ℝ) ^ 2)
    { status := "ok", op := "hyperbola_standard"
      payload := .hyperbolaD [(c, 0), (-c, 0)] (c / (a : ℝ))
        [(b / a, -1, 0), (-(b / a), -1, 0)] }

/-- classify_general_quadratic from conics.py: the discriminant B² - 4AC and
the sign-based classification, with the A = C branch for a negative
discriminant. -/
def classify_general_quadratic (A B C _D _E _F : ℚ) : ComputationResult :=
  let disc := B ^ 2 - 4 * A * C
  let conicType :=
    if disc < 0 then (if A = C then "ellipse" else "imaginary ellipse")
    else if disc = 0 then "parabola"
    else "hyperbola"
  { status := "ok", op := "classify_quadratic", payload := .classifyD disc conicType }

/-- Real roots of p·t² + q·t + r = 0 the way the source consumes sympy's
`solve`: an empty list for a constant equation, the single root of a linear
or doubled quadratic, both roots otherwise; a negative discriminant gives
complex roots and `float(root)` raises TypeError. -/
noncomputable def pyQuadRoots (p q r : ℚ) : Except PyError (List ℝ) :=
  if p = 0 then
    if q = 0 then .ok []
    else .ok [((-r / q : ℚ) : ℝ)]
  else
    let disc : ℚ := q ^ 2 - 4 * p * r
    if disc < 0 then .error (.typeError "Cannot convert complex to float")
    else if disc = 0 then .ok [((-q / (2 * p) : ℚ) : ℝ)]
    else
      .ok [((-q : ℝ) - Real.sqrt (disc : ℝ)) / (2 * p),
           ((-q : ℝ) + Real.sqrt (disc : ℝ)) / (2 * p)]

/-- line_conic_intersection from conics.py: parametrizes by y when
|line.B| > 1e-9 and by x otherwise; solving for x in an equation without x
(line.A = 0) gives sympy's empty solution list, which the source turns into
the status "error" result; otherwise the substituted univariate quadratic is
solved. -/
noncomputable def line_conic_intersection (l : Line) (A B C D E F : ℚ) :
    Except PyError ComputationResult := do
  if |l.B| > 1 / 1000000000 then
    -- y = -(l.A·x + l.C)/l.B substituted into the general quadratic
    let p := A - B * l.A / l.B + C * l.A ^ 2 / l.B ^ 2
    let q := D - B * l.C / l.B + 2 * C * l.A * l.C / l.B ^ 2 - E * l.A / l.B
    let r := F + C * l.C ^ 2 / l.B ^ 2 - E * l.C / l.B
    let roots ← pyQuadRoots p q r
    .ok { status := "ok", op := "line_conic_intersection"
          payload := .pointsR (roots.map fun x0 =>
            (x0, -((l.A : ℝ) * x0 + (l.C : ℝ)) / (l.B : ℝ))) }
  else if l.A = 0 then
    .ok { status := "error", op := "line_conic_intersection"
          payload := .message "Unable to parametrize line" }
  else
    -- x = -(l.B·y + l.C)/l.A substituted into the general quadratic
    let p := C + A * l.B ^ 2 / l.A ^ 2 - B * l.B / l.A
    let q := E + 2 * A * l.B * l.C / l.A ^ 2 - B * l.C / l.A - D * l.B / l.A
    let r := F + A * l.C ^ 2 / l.A ^ 2 - D * l.C / l.A
    let roots ← pyQuadRoots p q r
    .ok { status := "ok", op := "line_conic_intersection"
          payload := .pointsR (roots.map fun y0 =>
            (-((l.B : ℝ) * y0 + (l.C : ℝ)) / (l.A : ℝ), y0)) }

/-! ## locus.py -/

/-- perpendicular_bisector from locus.py: builds the bisector through
Line.from_general (whose ValueError propagates when the two points
coincide). -/
def perpendicular_bisector (a b : Point) : Except PyError ComputationResult := do
  let mx := (a.x + b.x) / 2
  let my := (a.y + b.y) / 2
  let d1 := -(b.y - a.y)
  let d2 := b.x - a.x
  let l ← Line.from_general d1 d2 (-(d1 * mx + d2 * my))
  return { status := "ok", op := "perpendicular_bisector", payload := .lineD l.display }

/-- apollonius_circle from locus.py: status "error" unless both ratio parts
are positive, else the Apollonius center and radius. -/
noncomputable def apollonius_circle (a b : Point) (mn : ℚ × ℚ) : ComputationResult :=
  let m := mn.1
  let n := mn.2
  if m ≤ 0 ∨ n ≤ 0 then
    { status := "error", op := "apollonius_circle"
      payload := .message "Ratio parts must be positive" }
  else
    let dx : ℚ := b.x - a.x
    let dy : ℚ := b.y - a.y
    { status := "ok", op := "apollonius_circle"
      payload := .apolloniusD ((m * b.x + n * a.x) / (m + n))
        ((m * b.y + n * a.y) / (m + n))
        ((|m * n| / (m + n) : ℚ) *
          Real.sqrt ((dx : ℝ) ^ 2 + (dy : ℝ) ^ 2) / (m : ℝ)) }

/-- Midpoints of consecutive point pairs, as the index-stepping loop of
locus_midpoints produces them. -/
def pairMidpoints : List Point → List (ℚ × ℚ)
  | a :: b :: rest => ((a.x + b.x) / 2, (a.y + b.y) / 2) :: pairMidpoints rest
  | _ => []

/-- locus_midpoints from locus.py: always status "ok". -/
def locus_midpoints (pts : List Point) : ComputationResult :=
  { status := "ok", op := "locus_midpoints", payload := .midpointsD (pairMidpoints pts) }

/-! ## predicates for the result-contract invariant -/

/-- Every status "error" result carries only the "message" payload. -/
def errOnlyMessage (r : ComputationResult) : Prop :=
  r.status = "error" → r.payload.isMessage = true

/-- Every status "error" result an exception-capable operation returns
carries only the "message" payload. -/
def errOnlyMessageE (e : Except PyError ComputationResult) : Prop :=
  ∀ r, e = .ok r → errOnlyMessage r

/-! ## helper lemmas -/

theorem ok_ne_error : ("ok" : String) ≠ "error" := by decide

theorem warning_ne_error : ("warning" : String) ≠ "error" := by decide

theorem except_error_bind {ε α β : Type} (e : ε) (f : α → Except ε β) :
    (Except.error e >>= f) = Except.error e := rfl

theorem except_ok_bind {ε α β : Type} (a : α) (f : α → Except ε β) :
    (Except.ok a >>= f : Except ε β) = f a := rfl

/-- Determinant of a concrete 2×2 nested-list matrix. -/
theorem detL_two (a b c d : ℚ) : detL [[a, b], [c, d]] = a * d - b * c := by
  simp [detL, detAux, List.range_succ, List.eraseIdx]
  ring

/-- Inverse of a concrete 2×2 nested-list matrix. -/
theorem invL_two (a b c d : ℚ) :
    invL [[a, b], [c, d]] =
      [[d / (a * d - b * c), -b / (a * d - b * c)],
       [-c / (a * d - b * c), a / (a * d - b * c)]] := by
  simp [invL, minorL, detL, detAux, List.range_succ, List.eraseIdx]
  constructor
  · constructor <;> ring_nf
  · constructor <;> ring_nf

/-- A well-formed (rectangular, non-empty) nested list passes
_ensure_matrix unchanged. -/
theorem ensure_matrix_ok (m : List (List ℚ))
    (h : m ≠ [] ∧ m.all (fun row => row.length = mcols m)) :
    ensure_matrix m = .ok m := by
  unfold ensure_matrix
  exact if_pos h

theorem errOnlyMessage_status_ok {o : String} {p : Payload} {w : List String} :
    errOnlyMessage ⟨"ok", o, p, w⟩ :=
  fun hs => absurd hs ok_ne_error

theorem errOnlyMessage_status_warning {o : String} {p : Payload} {w : List String} :
    errOnlyMessage ⟨"warning", o, p, w⟩ :=
  fun hs => absurd hs warning_ne_error

theorem errOnlyMessage_message {s o : String} {m : String} {w : List String} :
    errOnlyMessage ⟨s, o, .message m, w⟩ :=
  fun _ => rfl

theorem errOnlyMessageE_of_ok {r0 : ComputationResult} (h : errOnlyMessage r0) :
    errOnlyMessageE (Except.ok r0) := by
  intro r hr
  obtain rfl := Except.ok.inj hr
  exact h

theorem errOnlyMessageE_of_error (e : PyError) :
    errOnlyMessageE (Except.error e : Except PyError ComputationResult) :=
  fun _ hr => Except.noConfusion hr

theorem errOnlyMessageE_bind {α : Type} (e : Except PyError α)
    (f : α → Except PyError ComputationResult) (hf : ∀ a, errOnlyMessageE (f a)) :
    errOnlyMessageE (e >>= f) := by
  intro r hr
  cases e with
  | error e0 => rw [except_error_bind] at hr; exact Except.noConfusion hr
  | ok a => rw [except_ok_bind] at hr; exact hf a r hr

/-! ## per-operation instances of the error-payload contract -/

theorem msgOnly_distance : ∀ a b : Point, errOnlyMessage (distance a b) :=
  fun _ _ => errOnlyMessage_status_ok

theorem msgOnly_midpoint : ∀ a b : Point, errOnlyMessage (midpoint a b) :=
  fun _ _ => errOnlyMessage_status_ok

theorem msgOnly_parametric_point : ∀ (a b : Point) (t : ℚ),
    errOnlyMessage (parametric_point a b t) :=
  fun _ _ _ => errOnlyMessage_status_ok

theorem msgOnly_section_point : ∀ (a b : Point) (mn : ℚ × ℚ) (ext : Bool),
    errOnlyMessageE (section_point a b mn ext) := by
  intro a b mn ext
  unfold section_point
  dsimp only
  split_ifs <;>
    first
      | exact errOnlyMessageE_of_error _
      | exact errOnlyMessageE_of_ok errOnlyMessage_status_ok

theorem msgOnly_line_from_points : ∀ p1 p2 : Point,
    errOnlyMessageE (line_from_points p1 p2) := by
  intro p1 p2
  unfold line_from_points
  exact errOnlyMessageE_bind _ _ fun l =>
    errOnlyMessageE_of_ok errOnlyMessage_status_ok

theorem msgOnly_intersection : ∀ l1 l2 : Line, errOnlyMessageE (intersection l1 l2) := by
  intro l1 l2
  unfold intersection
  refine errOnlyMessageE_bind _ _ fun s1 => errOnlyMessageE_bind _ _ fun s2 => ?_
  split
  · exact errOnlyMessageE_of_ok errOnlyMessage_status_warning
  · exact errOnlyMessageE_of_ok errOnlyMessage_status_ok
  · exact errOnlyMessageE_of_error _

theorem msgOnly_angle_between_lines : ∀ l1 l2 : Line,
    errOnlyMessageE (angle_between_lines l1 l2) := by
  intro l1 l2
  unfold angle_between_lines
  split <;>
    first
      | exact errOnlyMessageE_of_ok errOnlyMessage_status_ok
      | (split_ifs <;>
          first
            | exact errOnlyMessageE_of_error _
            | exact errOnlyMessageE_of_ok errOnlyMessage_status_ok)

theorem msgOnly_foot_of_perpendicular : ∀ (l : Line) (p : Point),
    errOnlyMessageE (foot_of_perpendicular l p) := by
  intro l p
  unfold foot_of_perpendicular
  refine errOnlyMessageE_bind _ _ fun s => ?_
  obtain ⟨A, B, C⟩ := s
  exact errOnlyMessageE_of_ok errOnlyMessage_status_ok

theorem msgOnly_distance_from_point : ∀ (l : Line) (p : Point),
    errOnlyMessageE (distance_from_point l p) := by
  intro l p
  unfold distance_from_point
  exact errOnlyMessageE_bind _ _ fun _ =>
    errOnlyMessageE_of_ok errOnlyMessage_status_ok

theorem msgOnly_angle_bisectors : ∀ l1 l2 : Line,
    errOnlyMessageE (angle_bisectors l1 l2) := by
  intro l1 l2
  unfold angle_bisectors
  refine errOnlyMessageE_bind _ _ fun s1 => ?_
  obtain ⟨a1, b1, c1⟩ := s1
  refine errOnlyMessageE_bind _ _ fun s2 => ?_
  obtain ⟨a2, b2, c2⟩ := s2
  exact errOnlyMessageE_of_ok errOnlyMessage_status_ok

theorem msgOnly_matrix_addition : ∀ a b : List (List ℚ),
    errOnlyMessageE (matrix_addition a b) := by
  intro a b
  unfold matrix_addition
  refine errOnlyMessageE_bind _ _ fun ma => errOnlyMessageE_bind _ _ fun mb => ?_
  split_ifs
  · exact errOnlyMessageE_of_ok errOnlyMessage_status_ok
  · exact errOnlyMessageE_of_ok errOnlyMessage_message

theorem msgOnly_matrix_multiplication : ∀ a b : List (List ℚ),
    errOnlyMessageE (matrix_multiplication a b) := by
  intro a b
  unfold matrix_multiplication
  refine errOnlyMessageE_bind _ _ fun ma => errOnlyMessageE_bind _ _ fun mb => ?_
  split_ifs
  · exact errOnlyMessageE_of_ok errOnlyMessage_status_ok
  · exact errOnlyMessageE_of_ok errOnlyMessage_message

theorem msgOnly_matrix_determinant : ∀ m : List (List ℚ),
    errOnlyMessageE (matrix_determinant m) := by
  intro m
  unfold matrix_determinant
  refine errOnlyMessageE_bind _ _ fun mat => ?_
  split_ifs
  · exact errOnlyMessageE_of_ok errOnlyMessage_status_ok
  · exact errOnlyMessageE_of_ok errOnlyMessage_message

theorem msgOnly_matrix_inverse : ∀ m : List (List ℚ),
    errOnlyMessageE (matrix_inverse m) := by
  intro m
  unfold matrix_inverse
  refine errOnlyMessageE_bind _ _ fun mat => ?_
  split_ifs
  · exact errOnlyMessageE_of_ok errOnlyMessage_status_warning
  · exact errOnlyMessageE_of_ok errOnlyMessage_status_ok
  · exact errOnlyMessageE_of_ok errOnlyMessage_message

theorem msgOnly_matrix_transform : ∀ (m : List (List ℚ)) (s : String),
    errOnlyMessageE (matrix_transform m s) := by
  intro m s
  unfold matrix_transform
  refine errOnlyMessageE_bind _ _ fun mat => ?_
  split_ifs
  · exact errOnlyMessageE_of_ok errOnlyMessage_message
  · exact errOnlyMessageE_of_ok errOnlyMessage_message
  all_goals
    refine errOnlyMessageE_bind _ _ fun pts => ?_
  all_goals
    first
      | exact errOnlyMessageE_of_ok errOnlyMessage_status_ok
      | exact errOnlyMessageE_of_error _

theorem msgOnly_parabola_y2_4ax : ∀ a : ℚ, errOnlyMessage (parabola_y2_4ax a) := by
  intro a
  unfold parabola_y2_4ax
  split_ifs
  · exact errOnlyMessage_message
  · exact errOnlyMessage_status_ok

theorem msgOnly_parabola_x2_4ay : ∀ a : ℚ, errOnlyMessage (parabola_x2_4ay a) := by
  intro a
  unfold parabola_x2_4ay
  split_ifs
  · exact errOnlyMessage_message
  · exact errOnlyMessage_status_ok

theorem msgOnly_ellipse_standard : ∀ a b : ℚ, errOnlyMessage (ellipse_standard a b) := by
  intro a b
  unfold ellipse_standard
  split_ifs
  · exact errOnlyMessage_message
  · exact errOnlyMessage_status_ok

theorem msgOnly_hyperbola_standard : ∀ a b : ℚ,
    errOnlyMessage (hyperbola_standard a b) := by
  intro a b
  unfold hyperbola_standard
  split_ifs
  · exact errOnlyMessage_message
  · exact errOnlyMessage_status_ok

theorem msgOnly_classify_general_quadratic : ∀ A B C D E F : ℚ,
    errOnlyMessage (classify_general_quadratic A B C D E F) :=
  fun _ _ _ _ _ _ => errOnlyMessage_status_ok

theorem msgOnly_line_conic_intersection : ∀ (l : Line) (A B C D E F : ℚ),
    errOnlyMessageE (line_conic_intersection l A B C D E F) := by
  intro l A B C D E F
  unfold line_conic_intersection
  split_ifs
  · exact errOnlyMessageE_bind _ _ fun roots =>
      errOnlyMessageE_of_ok errOnlyMessage_status_ok
  · exact errOnlyMessageE_of_ok errOnlyMessage_message
  · exact errOnlyMessageE_bind _ _ fun roots =>
      errOnlyMessageE_of_ok errOnlyMessage_status_ok

theorem msgOnly_perpendicular_bisector : ∀ a b : Point,
    errOnlyMessageE (perpendicular_bisector a b) := by
  intro a b
  unfold perpendicular_bisector
  exact errOnlyMessageE_bind _ _ fun l =>
    errOnlyMessageE_of_ok errOnlyMessage_status_ok

theorem msgOnly_apollonius_circle : ∀ (a b : Point) (mn : ℚ × ℚ),
    errOnlyMessage (apollonius_circle a b mn) := by
  intro a b mn
  unfold apollonius_circle
  dsimp only
  split_ifs
  · exact errOnlyMessage_message
  · exact errOnlyMessage_status_ok

theorem msgOnly_locus_midpoints : ∀ pts : List Point,
    errOnlyMessage (locus_midpoints pts) :=
  fun _ => errOnlyMessage_status_ok

/-- Helper: Line.from_points on points with distinct coordinate tuples. -/
theorem from_points_of_ne (p1 p2 : Point) (h : ¬(p1.x = p2.x ∧ p1.y = p2.y)) :
    Line.from_points p1 p2 =
      .ok { A := p1.y - p2.y, B := p2.x - p1.x, C := p1.x * p2.y - p2.x * p1.y } := by
  unfold Line.from_points
  exact if_neg h

/-! ## the claims -/

/-- C1 counterexample: section_point(Point(0,0), Point(4,0), ratio=(1,3)) with
external=False returns the point (3.0, 0.0), not (1.0, 0.0) as the claim
states. -/
theorem C1_counterexample_section_point_value :
    section_point ⟨0, 0⟩ ⟨4, 0⟩ (1, 3) false =
      .ok { status := "ok", op := "section_point", payload := .pointP 3 0 } ∧
    (3 : ℚ) ≠ 1 :=
  ⟨by norm_num [section_point], by norm_num⟩

/-- C1 (amended): section_point computes P = (m·A + n·B)/(m+n) — it weights
the first point by m and the second by n, so it divides AB in ratio n : m
measured from A — and on Point(0,0), Point(4,0), ratio=(1,3) it returns
status "ok" with the payload point (3.0, 0.0). -/
theorem C1_section_point_internal :
    (∀ (a b : Point) (m n : ℚ), m + n ≠ 0 →
      section_point a b (m, n) false =
        .ok { status := "ok", op := "section_point"
              payload := .pointP ((m * a.x + n * b.x) / (m + n))
                ((m * a.y + n * b.y) / (m + n)) }) ∧
    section_point ⟨0, 0⟩ ⟨4, 0⟩ (1, 3) false =
      .ok { status := "ok", op := "section_point", payload := .pointP 3 0 } := by
  constructor
  · intro a b m n h
    norm_num [section_point, h]
  · norm_num [section_point]

/-- C2: for the coincident pair x + y = 0 and 2x + 2y = 0 the sympy
intersection is the line itself and the code crashes reading `.x` off it,
instead of returning the "parallel_lines" warning; parallel distinct lines do
get the warning and a regular pair gets its intersection point, but a
vertical line already crashes inside as_sympy. -/
theorem C2_intersection_coincident_crashes :
    intersection ⟨1, 1, 0⟩ ⟨2, 2, 0⟩ =
        .error (.attributeError "Line2D object has no attribute x") ∧
    intersection ⟨1, 1, 0⟩ ⟨1, 1, 1⟩ =
        .ok { status := "warning", op := "intersection"
              payload := .message "Lines are parallel or coincident"
              warnings := ["parallel_lines"] } ∧
    intersection ⟨1, -1, 0⟩ ⟨0, 1, -2⟩ =
        .ok { status := "ok", op := "intersection", payload := .pointPair 2 2 } ∧
    intersection ⟨1, 0, -2⟩ ⟨1, 1, 0⟩ =
        .error (.valueError "A 2nd Point or keyword slope must be used.") := by
  refine ⟨?_, ?_, ?_, ?_⟩ <;>
    · simp only [intersection, Line.as_sympy, EPS, bind, Except.bind]
      norm_num [symLineIntersection]

/-- C3 counterexample: the diagonal matrix with entries 1e-9 and 1 has
|det| ≤ 1e-9, yet matrix_inverse returns status "ok" with an inverse — the
source's comparison `abs(det) < EPS` is strict, so the boundary case is
inverted, not flagged. -/
theorem C3_counterexample_eps_boundary :
    |detL [[1 / 1000000000, 0], [0, 1]]| ≤ EPS ∧
    matrix_inverse [[1 / 1000000000, 0], [0, 1]] =
      .ok { status := "ok", op := "matrix_inverse"
            payload := .invResult [[1000000000, 0], [0, 1]] (1 / 1000000000) } := by
  constructor
  · rw [detL_two]
    norm_num [EPS, abs_le]
  · unfold matrix_inverse
    rw [ensure_matrix_ok _ ⟨by simp, by simp [mcols]⟩, except_ok_bind,
        if_pos (by norm_num [mrows, mcols]),
        if_neg (by rw [detL_two]; norm_num [EPS, abs_lt])]
    rw [detL_two, invL_two]
    norm_num

/-- C3 (amended): for every square matrix whose determinant satisfies the
strict bound |det| < 1e-9, matrix_inverse returns status "warning" with the
tag "singular_matrix" and a message-only payload (no numeric entries), and it
does not raise. -/
theorem C3_matrix_inverse_strictly_singular :
    ∀ m : List (List ℚ), m ≠ [] → m.all (fun row => row.length = mcols m) →
      mrows m = mcols m → |detL m| < EPS →
      matrix_inverse m =
        .ok { status := "warning", op := "matrix_inverse"
              payload := .message "Matrix is nearly singular"
              warnings := ["singular_matrix"] } := by
  intro m h1 h2 h3 h4
  unfold matrix_inverse
  rw [ensure_matrix_ok m ⟨h1, h2⟩, except_ok_bind, if_pos h3, if_pos h4]

/-- C3 witness: the zero 2×2 matrix is singular and gets the warning. -/
theorem C3_witness_zero_matrix :
    matrix_inverse [[0, 0], [0, 0]] =
      .ok { status := "warning", op := "matrix_inverse"
            payload := .message "Matrix is nearly singular"
            warnings := ["singular_matrix"] } :=
  C3_matrix_inverse_strictly_singular [[0, 0], [0, 0]] (by simp) (by simp [mcols])
    (by norm_num [mrows, mcols]) (by rw [detL_two]; norm_num [EPS])

/-- C4 counterexample: for a = 2 < 3 = b the major axis is the y-axis, yet
ellipse_standard(2, 3) still places both foci at (±√5, 0) — on the x-axis,
with non-zero x-coordinate — contradicting "on the x-axis exactly when
a ≥ b". -/
theorem C4_counterexample_foci_axis :
    (2 : ℚ) < 3 ∧
    ellipse_standard 2 3 =
      { status := "ok", op := "ellipse_standard"
        payload := .ellipseD 3 2 [(Real.sqrt 5, 0), (-Real.sqrt 5, 0)]
          (Real.sqrt 5 / 3) "a cos t" "b sin t" } ∧
    Real.sqrt 5 ≠ 0 := by
  refine ⟨by norm_num, ?_, ne_of_gt (Real.sqrt_pos.mpr (by norm_num))⟩
  unfold ellipse_standard
  rw [if_neg (by norm_num)]
  have hmax : max (2 : ℚ) 3 = 3 := by norm_num [max_def]
  have hmin : min (2 : ℚ) 3 = 2 := by norm_num [min_def]
  have hc : |((2 : ℚ) : ℝ) ^ 2 - ((3 : ℚ) : ℝ) ^ 2| = 5 := by norm_num
  rw [hmax, hmin, hc]
  norm_num

/-- C4 (amended): for all positive semi-axes the eccentricity is
sqrt(|a² - b²|) / max(a, b), but the foci are always placed at
(±sqrt(|a² - b²|), 0) on the x-axis, whether or not a ≥ b; concretely,
ellipse_standard(3, 2) yields eccentricity √5/3 and foci (±√5, 0). -/
theorem C4_ellipse_standard_amended :
    (∀ a b : ℚ, 0 < a → 0 < b →
      ellipse_standard a b =
        { status := "ok", op := "ellipse_standard"
          payload := .ellipseD (max a b) (min a b)
            [(Real.sqrt |(a : ℝ) ^ 2 - (b : ℝ) ^ 2|, 0),
             (-Real.sqrt |(a : ℝ) ^ 2 - (b : ℝ) ^ 2|, 0)]
            (Real.sqrt |(a : ℝ) ^ 2 - (b : ℝ) ^ 2| / ((max a b : ℚ) : ℝ))
            "a cos t" "b sin t" }) ∧
    ellipse_standard 3 2 =
      { status := "ok", op := "ellipse_standard"
        payload := .ellipseD 3 2 [(Real.sqrt 5, 0), (-Real.sqrt 5, 0)]
          (Real.sqrt 5 / 3) "a cos t" "b sin t" } := by
  constructor
  · intro a b ha hb
    unfold ellipse_standard
    rw [if_neg (by push_neg; exact ⟨ha, hb⟩)]
  · unfold ellipse_standard
    rw [if_neg (by norm_num)]
    have hmax : max (3 : ℚ) 2 = 3 := by norm_num [max_def]
    have hmin : min (3 : ℚ) 2 = 2 := by norm_num [min_def]
    have hc : |((3 : ℚ) : ℝ) ^ 2 - ((2 : ℚ) : ℝ) ^ 2| = 5 := by norm_num
    rw [hmax, hmin, hc]
    norm_num

/-- C5: for the perpendicular slope pair m1 = 1, m2 = -1 (lines y = x and
y = -x) the denominator 1 + m1·m2 is zero and the code raises
ZeroDivisionError instead of reporting 90°; the vertical tie-breaks (both
vertical ⇒ 0°, exactly one vertical ⇒ 90°) do hold, as does the arctan
formula away from the singularity (slopes 0 and 1 give 45°). -/
theorem C5_angle_between_lines_zero_division :
    angle_between_lines ⟨1, -1, 0⟩ ⟨1, 1, 0⟩ = .error .zeroDivisionError ∧
    angle_between_lines ⟨1, 0, -2⟩ ⟨1, 0, 5⟩ =
      .ok { status := "ok", op := "angle_between_lines", payload := .angleDeg 0 } ∧
    angle_between_lines ⟨1, 0, -2⟩ ⟨0, 1, 0⟩ =
      .ok { status := "ok", op := "angle_between_lines", payload := .angleDeg 90 } ∧
    angle_between_lines ⟨0, 1, 0⟩ ⟨1, -1, 0⟩ =
      .ok { status := "ok", op := "angle_between_lines", payload := .angleDeg 45 } := by
  refine ⟨?_, ?_, ?_, ?_⟩ <;> norm_num [angle_between_lines, Line.slope, EPS]
  field_simp
  ring

/-- C6: external section with the equal-parts ratio (1, 1) divides by
m - n = 0 and raises ZeroDivisionError — no status "error" result is
produced. -/
theorem C6_section_point_external_equal_ratio_raises :
    section_point ⟨0, 0⟩ ⟨4, 0⟩ (1, 1) true = .error .zeroDivisionError := by
  norm_num [section_point]

/-- C7: every status "error" result an engine operation returns carries the
single-key "message" payload and no numeric results (the engine's error
construction sites are all in the matrices, conics and locus modules; the
point and line operations never build an error status). -/
theorem C7_error_results_carry_only_a_message :
    (∀ a b : Point, errOnlyMessage (distance a b)) ∧
    (∀ a b : Point, errOnlyMessage (midpoint a b)) ∧
    (∀ (a b : Point) (mn : ℚ × ℚ) (ext : Bool),
      errOnlyMessageE (section_point a b mn ext)) ∧
    (∀ (a b : Point) (t : ℚ), errOnlyMessage (parametric_point a b t)) ∧
    (∀ p1 p2 : Point, errOnlyMessageE (line_from_points p1 p2)) ∧
    (∀ l1 l2 : Line, errOnlyMessageE (intersection l1 l2)) ∧
    (∀ l1 l2 : Line, errOnlyMessageE (angle_between_lines l1 l2)) ∧
    (∀ (l : Line) (p : Point), errOnlyMessageE (distance_from_point l p)) ∧
    (∀ (l : Line) (p : Point), errOnlyMessageE (foot_of_perpendicular l p)) ∧
    (∀ l1 l2 : Line, errOnlyMessageE (angle_bisectors l1 l2)) ∧
    (∀ a b : List (List ℚ), errOnlyMessageE (matrix_addition a b)) ∧
    (∀ a b : List (List ℚ), errOnlyMessageE (matrix_multiplication a b)) ∧
    (∀ m : List (List ℚ), errOnlyMessageE (matrix_determinant m)) ∧
    (∀ m : List (List ℚ), errOnlyMessageE (matrix_inverse m)) ∧
    (∀ (m : List (List ℚ)) (s : String), errOnlyMessageE (matrix_transform m s)) ∧
    (∀ a : ℚ, errOnlyMessage (parabola_y2_4ax a)) ∧
    (∀ a : ℚ, errOnlyMessage (parabola_x2_4ay a)) ∧
    (∀ a b : ℚ, errOnlyMessage (ellipse_standard a b)) ∧
    (∀ a b : ℚ, errOnlyMessage (hyperbola_standard a b)) ∧
    (∀ A B C D E F : ℚ, errOnlyMessage (classify_general_quadratic A B C D E F)) ∧
    (∀ (l : Line) (A B C D E F : ℚ),
      errOnlyMessageE (line_conic_intersection l A B C D E F)) ∧
    (∀ a b : Point, errOnlyMessageE (perpendicular_bisector a b)) ∧
    (∀ (a b : Point) (mn : ℚ × ℚ), errOnlyMessage (apollonius_circle a b mn)) ∧
    (∀ pts : List Point, errOnlyMessage (locus_midpoints pts)) :=
  ⟨msgOnly_distance, msgOnly_midpoint, msgOnly_section_point, msgOnly_parametric_point,
   msgOnly_line_from_points, msgOnly_intersection, msgOnly_angle_between_lines,
   msgOnly_distance_from_point, msgOnly_foot_of_perpendicular, msgOnly_angle_bisectors,
   msgOnly_matrix_addition, msgOnly_matrix_multiplication, msgOnly_matrix_determinant,
   msgOnly_matrix_inverse, msgOnly_matrix_transform, msgOnly_parabola_y2_4ax,
   msgOnly_parabola_x2_4ay, msgOnly_ellipse_standard, msgOnly_hyperbola_standard,
   msgOnly_classify_general_quadratic, msgOnly_line_conic_intersection,
   msgOnly_perpendicular_bisector, msgOnly_apollonius_circle, msgOnly_locus_midpoints⟩

/-- C8: Line.from_points fails (a raised degenerate-input ValueError) exactly
when the two points coincide, and otherwise returns precisely the
unnormalized coefficients (y1 - y2, x2 - x1, x1·y2 - x2·y1). -/
theorem C8_from_points_contract :
    ∀ p1 p2 : Point,
      (p1 = p2 → Line.from_points p1 p2 =
        .error (.valueError "Cannot define a line with two identical points")) ∧
      (p1 ≠ p2 → Line.from_points p1 p2 =
        .ok { A := p1.y - p2.y, B := p2.x - p1.x, C := p1.x * p2.y - p2.x * p1.y }) := by
  intro p1 p2
  constructor
  · rintro rfl
    simp [Line.from_points]
  · intro h
    refine from_points_of_ne p1 p2 fun hc => h ?_
    cases p1
    cases p2
    simp_all

/-- C9: the line Line.from_points builds passes exactly through both of its
defining points: A·x + B·y + C vanishes at each. -/
theorem C9_from_points_line_through_both :
    ∀ p1 p2 : Point, p1 ≠ p2 →
      ∃ l : Line, Line.from_points p1 p2 = .ok l ∧
        l.A * p1.x + l.B * p1.y + l.C = 0 ∧ l.A * p2.x + l.B * p2.y + l.C = 0 := by
  intro p1 p2 h
  refine ⟨_, from_points_of_ne p1 p2 fun hc => h ?_, by ring, by ring⟩
  cases p1
  cases p2
  simp_all

/-- C9 witness: the line through (1, 2) and (4, 6) contains both points. -/
theorem C9_witness_concrete_points :
    ∃ l : Line, Line.from_points ⟨1, 2⟩ ⟨4, 6⟩ = .ok l ∧
      l.A * (1 : ℚ) + l.B * 2 + l.C = 0 ∧ l.A * 4 + l.B * 6 + l.C = 0 :=
  C9_from_points_line_through_both ⟨1, 2⟩ ⟨4, 6⟩ (by norm_num [Point.mk.injEq])

/-- C10: distance and midpoint accept coincident inputs: distance(p, p) is
status "ok" with distance 0, and midpoint(p, p) is status "ok" with p itself
as the midpoint. -/
theorem C10_no_distinctness_precondition :
    ∀ p : Point,
      distance p p = { status := "ok", op := "distance", payload := .distanceVal 0 } ∧
      midpoint p p = { status := "ok", op := "midpoint", payload := .midpointP p.x p.y } := by
  intro p
  constructor
  · simp [distance]
  · simp only [midpoint, ComputationResult.mk.injEq, Payload.midpointP.injEq]
    refine ⟨trivial, trivial, ⟨by ring, by ring⟩, trivial⟩

end GeoGrapher
